import Mathlib

/-
Verification of the WORMGPT-CLI mission-orchestration engine.

This file gives a shallow embedding of the core of the repository:

- src/wormgpt_hive/drones/base_drone.py      (MissionStep, DroneRegistry)
- src/wormgpt_hive/queen/queen_registry.py   (QueenRegistry)
- src/wormgpt_hive/queen/message_bus.py      (MessageBus)
- src/wormgpt_hive/queen/orchestrator.py     (QueenOrchestrator)
- src/wormgpt_hive/shared/state_manager.py   (StateManager.add_mission, as a
  persistence trace)

Python dicts with string keys are modelled as insertion-ordered association
lists (`dset` replaces in place or appends, like dict assignment).  Python
objects that are mutated in place (MissionStep) are modelled by value passing;
aliasing between the list iterated by the `for` loop of `execute_mission` and
the reassigned local variable `plan` is tracked explicitly (see `step_iter`).
External oracles (the planner and reflector LLM calls, drone execution, the
human-feedback prompt) are modelled as environment parameters supplying, per
call, either a returned value or a raised exception; Python exceptions are
modelled with `Except`.  Printing, timestamps, the knowledge graph and file
encryption are out of scope and not modelled.
-/

namespace WormSpec

/-! ## JSON-like values (Python dict / list / scalar payloads) -/

/-- Values exchanged as parameters, results, messages and oracle verdicts.
Objects are insertion-ordered association lists, as Python dicts are. -/
inductive JVal where
  | null : JVal
  | bool : Bool → JVal
  | num : Int → JVal
  | str : String → JVal
  | arr : List JVal → JVal
  | obj : List (String × JVal) → JVal
deriving Repr

/-- Lookup in a string-keyed association list, first binding wins
(keys are unique under `dset`, matching Python dict lookup). -/
def dget {α : Type} : List (String × α) → String → Option α
  | [], _ => none
  | (k, v) :: rest, key => if k = key then some v else dget rest key

/-- Assignment in a string-keyed association list: replaces the existing
binding in place or appends a new one, matching Python dict assignment. -/
def dset {α : Type} : List (String × α) → String → α → List (String × α)
  | [], k, v => [(k, v)]
  | (k0, v0) :: rest, k, v =>
      if k0 = k then (k0, v) :: rest else (k0, v0) :: dset rest k v

/-- Python `d.get(key)` on a JSON object; `None` (here `none`) when the
value is not a dict or the key is missing. -/
def JVal.get : JVal → String → Option JVal
  | .obj fields, key => dget fields key
  | _, _ => none

/-- Python truthiness of a JSON-like value. -/
def JVal.truthy : JVal → Bool
  | .null => false
  | .bool b => b
  | .num n => n != 0
  | .str s => !s.toList.isEmpty
  | .arr xs => !xs.isEmpty
  | .obj fields => !fields.isEmpty

/-- Python truthiness of an optional value, with `none` (a missing key,
Python `None`) being falsy. -/
def jtruthy : Option JVal → Bool
  | none => false
  | some v => v.truthy

/-- Is the value a dict?  Models Python `isinstance(x, dict)`. -/
def JVal.isObj : JVal → Bool
  | .obj _ => true
  | _ => false

/-- Python `str(...)` rendering as used inside f-strings.  Only string,
numeric, boolean and null values are rendered faithfully; container values do
not occur at the formatted positions exercised by the engine. -/
def JVal.pyStr : JVal → String
  | .null => "None"
  | .bool true => "True"
  | .bool false => "False"
  | .num n => toString n
  | .str s => s
  | .arr _ => "[list]"
  | .obj _ => "[dict]"

/-- Does the first list start with the second? -/
def starts_with : List Char → List Char → Bool
  | _, [] => true
  | [], _ :: _ => false
  | c :: cs, p :: ps => c == p && starts_with cs ps

/-- Does `pat` occur in `s` as a contiguous character run? -/
def infix_chars (s pat : List Char) : Bool :=
  match s with
  | [] => starts_with [] pat
  | _ :: rest => starts_with s pat || infix_chars rest pat

/-- Does `pat` occur in `s` as a contiguous substring?  Used for the
spec statements about observation and details texts. -/
def contains_substr (s pat : String) : Bool :=
  infix_chars s.toList pat.toList

/-- Python str.split with the single-character dot separator, written by
structural recursion over the characters (String.splitOn agrees but is not
kernel-reducible).  Every dot opens a new token, so empty tokens are kept:
the split of .method is a pair of tokens with an empty first token. -/
def split_dot_chars : List Char → List (List Char)
  | [] => [[]]
  | c :: rest =>
      if c == '.' then [] :: split_dot_chars rest
      else
        match split_dot_chars rest with
        | tok :: toks => (c :: tok) :: toks
        | [] => [[c]]

/-- Python action.split with separator dot, on strings. -/
def py_split_dot (s : String) : List String :=
  (split_dot_chars s.toList).map (fun cs => String.mk cs)

/-! ## MissionStep (base_drone.py, dataclass MissionStep) -/

/-- One plan step.  Field for field the Python dataclass, minus the
`timestamp` (wall-clock, out of scope).  The Python `result` attribute holds
`None` initially, the success `data` payload, or a dict on failure; `JVal.null`
stands for `None`.  `to_dict` copies current field values into a plain dict,
which value semantics models for free: a `MissionStep` value used as a
snapshot is exactly the dict `to_dict` would have produced at that moment. -/
structure MissionStep where
  step_id : Int
  action : String
  parameters : JVal
  reasoning : String
  status : String
  observation : Option String
  result : JVal
deriving Repr

/-- The Python constructor: status pending, no observation, result None. -/
def MissionStep.mk0 (id : Int) (action : String) (parameters : JVal)
    (reasoning : String) : MissionStep :=
  ⟨id, action, parameters, reasoning, "pending", none, .null⟩

/-- MissionStep.mark_completed from base_drone.py. -/
def MissionStep.mark_completed (s : MissionStep) (observation : String)
    (data : JVal) : MissionStep :=
  { s with status := "completed", observation := some observation, result := data }

/-- MissionStep.mark_failed from base_drone.py: the second argument is stored
under the key error of the result dict. -/
def MissionStep.mark_failed (s : MissionStep) (observation : String)
    (error : JVal) : MissionStep :=
  { s with status := "failed", observation := some observation,
           result := .obj [("error", error)] }

/-! ## Dispatch targets and the step dispatcher (orchestrator._execute_step) -/

/-- Outcome of one `target.execute(method, params)` call: either a raised
exception carrying its message, or a returned response dict.  Responses are
dicts per the capability contract of the spec; non-dict responses are not
modelled. -/
inductive CallOutcome where
  | raises : String → CallOutcome
  | returns : List (String × JVal) → CallOutcome

/-- A dispatch target (drone or queen) seen from the dispatcher: its
`execute(method, params)` behaviour. -/
def Target : Type := String → JVal → CallOutcome

/-- Interpretation of a returned response dict, from the tail of
`_execute_step`: truthy `success` marks the step completed with the `message`
text (default used only when the key is missing) and the `data` payload;
otherwise the step is marked failed with the `error` text and the `details`
payload. -/
def interpret_response (step : MissionStep) (r : List (String × JVal)) :
    MissionStep :=
  if jtruthy (dget r "success") then
    step.mark_completed
      (match dget r "message" with
        | none => "Action completed successfully"
        | some v => v.pyStr)
      ((dget r "data").getD .null)
  else
    step.mark_failed
      ("Error: " ++ (match dget r "error" with
        | none => "Unknown error"
        | some v => v.pyStr))
      ((dget r "details").getD .null)

/-- Interpretation of an execute call outcome: the enclosing try/except of
`_execute_step` converts a raised exception into a failed step whose
observation carries the exception text. -/
def interpret_call (step : MissionStep) (c : CallOutcome) : MissionStep :=
  match c with
  | .raises msg => step.mark_failed ("Execution error: " ++ msg) .null
  | .returns r => interpret_response step r

/-- Resolution order of `_execute_step`: the queen registry is consulted
first, then the drone registry. -/
def resolve_target (queenReg droneReg : String → Option Target)
    (name : String) : Option Target :=
  match queenReg name with
  | some q => some q
  | none => droneReg name

/-- QueenOrchestrator._execute_step.  Splits the action on the dot; a split
of length other than two is an invalid action format; otherwise the first
token is resolved against the queen registry then the drone registry, and the
resolved target is invoked.  The function is total: every Python exception
path inside the method is caught by its try/except. -/
def execute_step (queenReg droneReg : String → Option Target)
    (step : MissionStep) : MissionStep :=
  let action_parts := py_split_dot step.action
  if action_parts.length ≠ 2 then
    step.mark_failed ("Invalid action format: " ++ step.action) .null
  else
    let target_name := action_parts.headD ""
    let action_name := (action_parts.drop 1).headD ""
    match resolve_target queenReg droneReg target_name with
    | some tgt => interpret_call step (tgt action_name step.parameters)
    | none => step.mark_failed ("Drone not found: " ++ target_name) .null

/-! ## MessageBus (message_bus.py) -/

/-- The process-wide mailbox table: queen id to pending message list. -/
def Bus : Type := List (String × List JVal)

/-- MessageBus.send_message: create the mailbox on first use, then append. -/
def send_message_bus (bus : Bus) (recipient_queen_id : String)
    (message : JVal) : Bus :=
  let bus1 : Bus :=
    match dget bus recipient_queen_id with
    | none => dset bus recipient_queen_id []
    | some _ => bus
  dset bus1 recipient_queen_id
    ((dget bus1 recipient_queen_id).getD [] ++ [message])

/-- MessageBus.receive_messages: return the whole queue and clear the
mailbox (drain on read). -/
def receive_messages (bus : Bus) (queen_id : String) : List JVal × Bus :=
  ((dget bus queen_id).getD [], dset bus queen_id [])

/-! ## Registries (base_drone.py DroneRegistry, queen_registry.py QueenRegistry) -/

/-- A registered drone: its name and its execute behaviour. -/
structure Drone where
  name : String
  exec : Target

/-- DroneRegistry.register_drone: plain dict assignment keyed by the drone
name; an existing entry under the same name is silently overwritten. -/
def register_drone (drones : List (String × Drone)) (drone : Drone) :
    List (String × Drone) :=
  dset drones drone.name drone

/-- DroneRegistry.get_drone. -/
def get_drone (drones : List (String × Drone)) (name : String) :
    Option Drone :=
  dget drones name

/-- QueenRegistry.register_queen: raises ValueError when the id is already
registered, otherwise stores the instance (the message-bus wiring it also
performs is not observable here). -/
def register_queen {α : Type} (queens : List (String × α))
    (queen_id : String) (queen_instance : α) :
    Except String (List (String × α)) :=
  if (dget queens queen_id).isSome then
    .error ("Queen with ID \x27" ++ queen_id ++ "\x27 already registered.")
  else
    .ok (dset queens queen_id queen_instance)

/-- QueenRegistry.get_queen. -/
def get_queen {α : Type} (queens : List (String × α)) (queen_id : String) :
    Option α :=
  dget queens queen_id

/-! ## Queen messaging (orchestrator.send_message / execute) -/

/-- QueenOrchestrator.send_message.  Falsy recipient or message yields the
missing-parameter error response; otherwise the sender id is stamped into the
message dict and the message is appended to the recipient mailbox.  A truthy
message that is not a dict would raise in Python (the item assignment); that
is returned as an exception here.  Non-string recipient ids are outside the
engine contract and unmodelled. -/
def queen_send_message (queen_id : String) (bus : Bus) (parameters : JVal) :
    Except String (List (String × JVal) × Bus) :=
  let recipient := parameters.get "recipient_queen_id"
  let message := parameters.get "message"
  if !jtruthy recipient || !jtruthy message then
    .ok ([("success", .bool false),
          ("error", .str "Missing \x27recipient_queen_id\x27 or \x27message\x27 parameter.")],
         bus)
  else
    match recipient, message with
    | some (.str rid), some (.obj mfields) =>
        let m := JVal.obj (dset mfields "sender_queen_id" (.str queen_id))
        .ok ([("success", .bool true),
              ("message", .str ("Message sent to " ++ rid ++ "."))],
             send_message_bus bus rid m)
    | _, _ => .error "TypeError: message is not a dict"

/-- QueenOrchestrator.execute, the queen-as-dispatch-target entry point.
The unrecognized-action branch with a goal parameter recursively runs a whole
mission; that recursion is supplied by the caller as `run_mission` (never
exercised by the theorems below). -/
def queen_execute (queen_id : String)
    (run_mission : JVal → List (String × JVal) × Bus) (bus : Bus)
    (action : String) (parameters : JVal) :
    Except String (List (String × JVal) × Bus) :=
  if action = "send_message" then
    queen_send_message queen_id bus parameters
  else if action = "check_mailbox" then
    let r := receive_messages bus queen_id
    .ok ([("success", .bool true), ("messages", .arr r.1)], r.2)
  else
    match parameters.get "goal" with
    | some _ =>
        .ok (run_mission ((parameters.get "goal").getD .null))
    | none =>
        .ok ([("success", .bool false),
              ("error", .str "Missing \x27goal\x27 parameter for execute_mission.")],
             bus)

/-! ## The reserved mailbox goal (orchestrator._generate_plan, mailbox branch) -/

/-- The sentinel goal that bypasses the external planner. -/
def check_mailbox_goal : String := "check mailbox and execute tasks"

/-- The mailbox branch of `_generate_plan`, entered when the goal equals
`check_mailbox_goal`.  Drains the mailbox; an empty mailbox yields the
informational single-step plan; otherwise the first message is inspected: the
task name is looked up under the message key of the mailbox item, a
recognized port_scan task yields the two-step plan, an unrecognized task the
unknown-task reply plan, anything else the malformed-message reply plan.
Non-string sender ids are outside the engine contract and unmodelled. -/
def generate_plan_mailbox (queen_id : String) (bus : Bus) :
    Option (List MissionStep) × Bus :=
  let drained := receive_messages bus queen_id
  let bus1 := drained.2
  match drained.1 with
  | [] =>
      (some [MissionStep.mk0 1 (queen_id ++ ".send_message")
        (.obj [("recipient_queen_id", .str queen_id),
               ("message", .obj [("status", .str "completed"),
                                 ("details", .str "No new messages in mailbox.")])])
        "Mailbox is empty, no tasks to execute."], bus1)
  | task_message :: _ =>
      let task_payload := (task_message.get "message").getD (.obj [])
      let sender_queen_id :=
        match task_message.get "sender_queen_id" with
        | some (.str s) => s
        | _ => queen_id
      if task_payload.truthy && jtruthy (task_payload.get "task") then
        let task_name := (task_payload.get "task").getD .null
        match task_name with
        | .str "port_scan" =>
            let target := (task_payload.get "target").getD (.str "localhost")
            (some [MissionStep.mk0 1 "ReconDrone.port_scan"
                (.obj [("target", target)])
                ("Execute port scan as requested by " ++ sender_queen_id),
              MissionStep.mk0 2 (queen_id ++ ".send_message")
                (.obj [("recipient_queen_id", .str sender_queen_id),
                       ("message", .obj [("status", .str "completed"),
                          ("task", .str "port_scan"),
                          ("target", target),
                          ("result", .str "Port scan completed. Check ReconDrone output.")])])
                ("Report port scan completion to " ++ sender_queen_id)], bus1)
        | _ =>
            (some [MissionStep.mk0 1 (queen_id ++ ".send_message")
                (.obj [("recipient_queen_id", .str sender_queen_id),
                       ("message", .obj [("status", .str "failed"),
                          ("details", .str ("Unknown task: " ++ task_name.pyStr)),
                          ("original_message", task_payload)])])
                "Report back unknown task to sender Queen"], bus1)
      else
        (some [MissionStep.mk0 1 (queen_id ++ ".send_message")
            (.obj [("recipient_queen_id", .str sender_queen_id),
                   ("message", .obj [("status", .str "failed"),
                      ("details", .str "Received empty or malformed task message"),
                      ("original_message", task_payload)])])
            "Report back malformed message to sender Queen"], bus1)

/-- The step dispatcher specialised to a queen registry holding exactly the
executing queen under its own id (the Scenario C wiring): `_execute_step`
where the queen lookup succeeds precisely on `queen_id`, whose execute is
`queen_execute`, threading the message bus; the drone registry handles other
targets.  An exception from the queen call is caught by the dispatcher
try/except with the bus in its pre-call state (the modelled queen actions
mutate the bus only after their last fallible operation). -/
def execute_step_with_self_queen (queen_id : String)
    (run_mission : JVal → List (String × JVal) × Bus)
    (droneReg : String → Option Target) (bus : Bus) (step : MissionStep) :
    MissionStep × Bus :=
  let action_parts := py_split_dot step.action
  if action_parts.length ≠ 2 then
    (step.mark_failed ("Invalid action format: " ++ step.action) .null, bus)
  else
    let target_name := action_parts.headD ""
    let action_name := (action_parts.drop 1).headD ""
    if target_name = queen_id then
      match queen_execute queen_id run_mission bus action_name step.parameters with
      | .error e => (step.mark_failed ("Execution error: " ++ e) .null, bus)
      | .ok (r, bus2) => (interpret_response step r, bus2)
    else
      match droneReg target_name with
      | some tgt => (interpret_call step (tgt action_name step.parameters), bus)
      | none => (step.mark_failed ("Drone not found: " ++ target_name) .null, bus)

/-! ## Plan parsing and reflection (orchestrator) -/

/-- One entry of a revised plan, as `_parse_plan_from_llm` reads it: the four
keys are indexed directly, so a missing key raises KeyError out of the
caller.  Python stores whatever values the keys hold; the embedding requires
the contract types (int id, string action and reasoning), which no claim
exercises beyond key presence. -/
def parse_step_spec (v : JVal) : Except String MissionStep :=
  match v with
  | .obj fields =>
      match dget fields "step_id", dget fields "action",
            dget fields "parameters", dget fields "reasoning" with
      | some (.num i), some (.str a), some p, some (.str r) =>
          .ok (MissionStep.mk0 i a p r)
      | _, _, _, _ => .error "KeyError in revised plan step"
  | _ => .error "TypeError in revised plan step"

/-- QueenOrchestrator._parse_plan_from_llm.  Not wrapped in any try/except:
its exceptions propagate to the caller. -/
def parse_plan_from_llm (v : JVal) : Except String (List MissionStep) :=
  match v with
  | .arr items => items.mapM parse_step_spec
  | _ => .error "TypeError: revised plan is not a list"

/-- Outcome of one reflector oracle call, as seen after the HTTP call and
json parsing: either some exception was raised on the way (API error, or the
response text failed to parse as JSON), or a JSON value was obtained. -/
inductive ReflectOutcome where
  | raises : String → ReflectOutcome
  | parsed : JVal → ReflectOutcome

/-- Environment of one `execute_mission` run: the registries, the result of
plan generation (none models an exception inside `_generate_plan`), the
reflector behaviour per reflection call (in call order), and the
human-feedback answer per prompt (in call order). -/
structure MissionEnv where
  queenReg : String → Option Target
  droneReg : String → Option Target
  genPlan : Option (List MissionStep)
  reflect : Nat → ReflectOutcome
  feedback : Nat → String

/-- QueenOrchestrator._reflect_on_failure: a raised exception anywhere in the
call is caught and replaced by the fallback continue verdict; otherwise the
parsed JSON value is returned as is (even when it is not a dict). -/
def reflect_on_failure (env : MissionEnv) (n : Nat) : JVal :=
  match env.reflect n with
  | .raises _ => .obj [("next_action", .str "continue")]
  | .parsed v => v

/-! ## The execution loop of execute_mission -/

/-- Replacement of the plan tail on a replan verdict, line 120 of
orchestrator.py: `plan = plan[: idx + 1] + remaining_steps`. -/
def spliceReplan (cur : List MissionStep) (idx : Nat)
    (remaining : List MissionStep) : List MissionStep :=
  cur.take (idx + 1) ++ remaining

/-- Mutable locals of the loop body.  `planVar` is the current value of the
local variable `plan`; `replanned` records whether `plan` was ever reassigned
(before that, `plan` aliases the list the `for` statement iterates, so
executing a step updates `planVar` in place; afterwards the iterated list and
`plan` are distinct objects and step execution no longer touches `planVar`).
`exn` carries a raised, uncaught exception (which aborts the loop and
propagates).  `dispatched` and `feedbacks` are observation traces of the
dispatch and human-feedback calls. -/
structure LoopState where
  planVar : List MissionStep
  replanned : Bool
  reflCount : Nat
  fbCount : Nat
  dispatched : List (Int × String)
  feedbacks : List String
  exn : Option String
deriving Repr

/-- Application of a reflection verdict, the if/elif chain at lines 107 to
128 of orchestrator.py.  A non-dict verdict, a missing or unrecognized
next_action (including retry), and an explicit continue all leave the state
unchanged; request_human_feedback records the prompted answer; replan with a
truthy revised_plan parses it (a parse failure is an uncaught exception) and
splices the parsed steps after position idx of the current plan variable. -/
def apply_reflection (env : MissionEnv) (idx : Nat) (reflection : JVal)
    (st : LoopState) : LoopState :=
  if !reflection.isObj then st
  else
    match reflection.get "next_action" with
    | some (.str "request_human_feedback") =>
        { st with feedbacks := st.feedbacks ++ [env.feedback st.fbCount],
                  fbCount := st.fbCount + 1 }
    | some (.str "replan") =>
        if ((reflection.get "revised_plan").getD (.arr [])).truthy then
          match parse_plan_from_llm ((reflection.get "revised_plan").getD (.arr [])) with
          | .ok remaining =>
              { st with planVar := spliceReplan st.planVar idx remaining,
                        replanned := true }
          | .error e => { st with exn := some e }
        else st
    | _ => st

/-- One iteration of the `for idx, step in enumerate(plan)` body.  The
iterated step `s0` is the original object at position idx, still in its
pre-execution state (each step object is mutated only during its own
dispatch).  Its in-place mutation is visible in `planVar` exactly while
`plan` still aliases the iterated list, hence the `replanned` guard.  A
failed step triggers reflection. -/
def step_iter (env : MissionEnv) (idx : Nat) (s0 : MissionStep)
    (st : LoopState) : LoopState :=
  let s1 := execute_step env.queenReg env.droneReg s0
  let st1 := { st with
    dispatched := st.dispatched ++ [(s0.step_id, s0.action)],
    planVar := if st.replanned then st.planVar else st.planVar.set idx s1 }
  if s1.status == "failed" then
    apply_reflection env idx (reflect_on_failure env st.reflCount)
      { st1 with reflCount := st1.reflCount + 1 }
  else st1

/-- The loop over the original plan list.  The `for` statement captured the
list object `plan` referred to at loop entry, so the iteration sequence is
fixed even when the body reassigns `plan`.  An uncaught exception stops the
loop and propagates. -/
def run_steps (env : MissionEnv) (idx : Nat) (steps : List MissionStep)
    (st : LoopState) : LoopState :=
  match steps with
  | [] => st
  | s :: rest =>
      if st.exn.isSome then st
      else run_steps env (idx + 1) rest (step_iter env idx s st)

/-! ## Mission outcome and execute_mission -/

/-- The aggregate counts stored in the mission result. -/
structure MissionResult where
  total_steps : Nat
  successful_steps : Nat
  failed_steps : Nat
deriving Repr, DecidableEq

/-- The mission record handed to StateManager.add_mission (its goal, final
status, step-dict list and result; the store-assigned id and timestamps are
out of scope). -/
structure MissionRecord where
  goal : String
  status : String
  steps : List MissionStep
  result : Option MissionResult
deriving Repr

/-- Observable outcome of one `execute_mission` call that returned normally:
the fields of the returned dict (`success`, `error`, the mission dict with
its status, steps and result), the re-snapshotted top-level steps list, the
sequence of persisted mission records (one add_mission call each), and the
dispatch and feedback traces. -/
structure MissionOutcome where
  success : Bool
  error : Option String
  mission_status : String
  mission_steps : List MissionStep
  mission_result : Option MissionResult
  returned_steps : List MissionStep
  persisted : List MissionRecord
  dispatched : List (Int × String)
  feedbacks : List String
deriving Repr

/-- The early return of execute_mission when `_generate_plan` produced
nothing usable: success false with the error text, the mission dict still in
the planning state with no steps, and nothing persisted. -/
def planFailureOutcome : MissionOutcome :=
  { success := false,
    error := some "Failed to generate plan",
    mission_status := "planning",
    mission_steps := [],
    mission_result := none,
    returned_steps := [],
    persisted := [],
    dispatched := [],
    feedbacks := [] }

/-- QueenOrchestrator.execute_mission.  Planning failure (an exception inside
`_generate_plan`, modelled by `genPlan = none`, or an empty plan list: Python
tests `if not plan`) aborts without persisting.  Otherwise the step dicts are
snapshotted into the mission dict once, before execution, the loop runs over
the original plan list, and on normal loop exit the aggregate counts are
computed over the final value of the `plan` variable, the mission dict is
persisted exactly once, and the result dict is returned.  An exception raised
inside the loop (a replan verdict whose revised plan fails to parse)
propagates out of the method. -/
def execute_mission (env : MissionEnv) (goal : String) :
    Except String MissionOutcome :=
  match env.genPlan with
  | none => .ok planFailureOutcome
  | some plan =>
    if plan.isEmpty then .ok planFailureOutcome
    else
      let snapshot := plan
      let st0 : LoopState :=
        { planVar := plan, replanned := false, reflCount := 0, fbCount := 0,
          dispatched := [], feedbacks := [], exn := none }
      let stF := run_steps env 0 plan st0
      match stF.exn with
      | some e => .error e
      | none =>
          let success_count := stF.planVar.countP (fun s => s.status == "completed")
          let res : MissionResult :=
            { total_steps := stF.planVar.length,
              successful_steps := success_count,
              failed_steps := stF.planVar.length - success_count }
          let record : MissionRecord :=
            { goal := goal, status := "completed", steps := snapshot,
              result := some res }
          .ok { success := success_count == stF.planVar.length,
                error := none,
                mission_status := "completed",
                mission_steps := snapshot,
                mission_result := some res,
                returned_steps := stF.planVar,
                persisted := [record],
                dispatched := stF.dispatched,
                feedbacks := stF.feedbacks }

/-! ## Concrete test fixtures for the scenario claims -/

/-- A drone whose execute always succeeds with message hi. -/
def okDrone : Target := fun _ _ =>
  .returns [("success", .bool true), ("message", .str "hi")]

/-- A drone whose execute always fails with error boom. -/
def failDrone : Target := fun _ _ =>
  .returns [("success", .bool false), ("error", .str "boom")]

/-- A drone registry holding okDrone under Good and failDrone under Bad. -/
def twoDroneReg : String → Option Target := fun name =>
  if name = "Good" then some okDrone
  else if name = "Bad" then some failDrone
  else none

/-- The Scenario B reflector verdict: replan with the single revised step
new_step_2. -/
def sbReflect : ReflectOutcome :=
  .parsed (.obj [("next_action", .str "replan"),
    ("revised_plan", .arr [.obj [("step_id", .num 2), ("action", .str "X.y"),
      ("parameters", .obj []), ("reasoning", .str "fix")]])])

/-- Scenario B environment: a one-step plan whose step fails, with the
reflector returning the replan verdict above. -/
def sbEnv : MissionEnv :=
  { queenReg := fun _ => none,
    droneReg := twoDroneReg,
    genPlan := some [MissionStep.mk0 1 "Bad.x" (.obj []) "r"],
    reflect := fun _ => sbReflect,
    feedback := fun _ => "" }

/-- Scenario A environment: a one-step plan whose step succeeds. -/
def saEnv : MissionEnv :=
  { queenReg := fun _ => none,
    droneReg := twoDroneReg,
    genPlan := some [MissionStep.mk0 1 "Good.y" (.obj []) "r"],
    reflect := fun _ => .raises "unused",
    feedback := fun _ => "" }

/-- Replan-frame environment: a two-step plan whose first step fails with the
Scenario B replan verdict, and whose second step succeeds. -/
def frameEnv : MissionEnv :=
  { queenReg := fun _ => none,
    droneReg := twoDroneReg,
    genPlan := some [MissionStep.mk0 1 "Bad.x" (.obj []) "r1",
                     MissionStep.mk0 2 "Good.y" (.obj []) "r2"],
    reflect := fun _ => sbReflect,
    feedback := fun _ => "" }

/-- An environment whose reflector answers a replan verdict carrying a
revised plan entry that lacks the action key. -/
def badReplanEnv : MissionEnv :=
  { queenReg := fun _ => none,
    droneReg := twoDroneReg,
    genPlan := some [MissionStep.mk0 1 "Bad.x" (.obj []) "r"],
    reflect := fun _ => .parsed (.obj [("next_action", .str "replan"),
      ("revised_plan", .arr [.obj [("step_id", .num 2)]])]),
    feedback := fun _ => "" }

/-- Scenario C mailbox as the spec literally states it: the stored message is
the flat dict with the single key task. -/
def c6_flat_bus : Bus :=
  [("default_queen", [.obj [("task", .str "unknown_task")]])]

/-- Scenario C mailbox in the shape the code actually recognizes: the task
payload nested under the message key, with an explicit sender id. -/
def c6_nested_bus : Bus :=
  [("default_queen", [.obj [("message", .obj [("task", .str "unknown_task")]),
                            ("sender_queen_id", .str "queen_B")]])]

/-- Plan generation for the reserved goal over the nested mailbox. -/
def c6_plan : Option (List MissionStep) × Bus :=
  generate_plan_mailbox "default_queen" c6_nested_bus

/-- The single step of that plan. -/
def c6_step : MissionStep :=
  (c6_plan.1.getD []).headD (MissionStep.mk0 0 "" .null "")

/-- Dispatch of that step through the self-queen registry wiring. -/
def c6_exec : MissionStep × Bus :=
  execute_step_with_self_queen "default_queen" (fun _ => ([], []))
    (fun _ => none) c6_plan.2 c6_step

/-- What the sender queen_B then drains from its mailbox. -/
def c6_reply_box : List JVal :=
  (receive_messages c6_exec.2 "queen_B").1

/-! ## Derived predicates and witness fixtures -/

/-- Does this reflection verdict value avoid the one uncaught exception of
the loop body?  True unless the verdict is a dict demanding a replan with a
truthy revised_plan that fails to parse.  Mirrors the branch structure of
`apply_reflection`. -/
def reflectionParses (reflection : JVal) : Bool :=
  if !reflection.isObj then true
  else
    match reflection.get "next_action" with
    | some (.str "replan") =>
        if ((reflection.get "revised_plan").getD (.arr [])).truthy then
          (parse_plan_from_llm ((reflection.get "revised_plan").getD (.arr []))).toBool
        else true
    | _ => true

/-- A reflector call outcome the engine cannot use: the call raised, or the
parsed response is not a dict. -/
def reflectionUnusable : ReflectOutcome → Bool
  | .raises _ => true
  | .parsed v => !v.isObj

/-- The mission record as built at the completed transition: the planning
time snapshot of the original steps, and aggregate counts over the final
value of the plan variable. -/
def final_record (goal : String) (snapshot finalPlan : List MissionStep) :
    MissionRecord :=
  { goal := goal, status := "completed", steps := snapshot,
    result := some
      { total_steps := finalPlan.length,
        successful_steps := finalPlan.countP (fun s => s.status == "completed"),
        failed_steps := finalPlan.length -
          finalPlan.countP (fun s => s.status == "completed") } }

/-- A target whose execute always raises, for the C9 witness. -/
def c9_raising_target : Target := fun _ _ => .raises "boom"

/-- The drone registry holding only the raising target under T. -/
def c9_droneReg : String → Option Target := fun n =>
  if n = "T" then some c9_raising_target else none

/-- A step addressed to the raising target. -/
def c9_step : MissionStep := MissionStep.mk0 1 "T.m" (.obj []) "r"

/-- A drone fixture for the C5 witness. -/
def c5_d1 : Drone := ⟨"D", fun _ _ => .raises "one"⟩

/-- A second drone fixture under the same name. -/
def c5_d2 : Drone := ⟨"D", fun _ _ => .raises "two"⟩

/-- The step whose action has an empty target token, for C4. -/
def c4_step : MissionStep := MissionStep.mk0 1 ".method" (.obj []) "r"

/-- A step whose action has no dot at all, for the C4 witness. -/
def c4_nodot_step : MissionStep := MissionStep.mk0 1 "abc" (.obj []) "r"

/-- The outcome of the Scenario A run, used by closed witnesses. -/
def saOut : MissionOutcome :=
  ((execute_mission saEnv "say hello").toOption).getD planFailureOutcome

/-- An environment whose planner produced the empty step list. -/
def emptyPlanEnv : MissionEnv :=
  { queenReg := fun _ => none,
    droneReg := fun _ => none,
    genPlan := some [],
    reflect := fun _ => .raises "x",
    feedback := fun _ => "" }

/-- An environment whose single step fails and whose reflector always
raises. -/
def c8Env : MissionEnv :=
  { queenReg := fun _ => none,
    droneReg := twoDroneReg,
    genPlan := some [MissionStep.mk0 1 "Bad.x" (.obj []) "r"],
    reflect := fun _ => .raises "connection error",
    feedback := fun _ => "" }

/-! ## Association-list lemmas -/

theorem dget_dset_self {α : Type} (l : List (String × α)) (k : String) (v : α) :
    dget (dset l k v) k = some v := by
  induction l with
  | nil => simp [dget, dset]
  | cons hd tl ih =>
      obtain ⟨k0, v0⟩ := hd
      by_cases h : k0 = k
      · simp [dget, dset, h]
      · simp [dget, dset, h, ih]

theorem dget_dset_ne {α : Type} (l : List (String × α)) (k k' : String) (v : α)
    (h : k' ≠ k) : dget (dset l k v) k' = dget l k' := by
  induction l with
  | nil => simp [dget, dset, Ne.symm h]
  | cons hd tl ih =>
      obtain ⟨k0, v0⟩ := hd
      by_cases h0 : k0 = k
      · subst h0
        simp [dget, dset, Ne.symm h]
      · by_cases h1 : k0 = k'
        · subst h1
          simp [dget, dset, h0]
        · simp [dget, dset, h0, h1, ih]

/-! ## Loop invariant lemmas -/

theorem apply_reflection_dispatched (env : MissionEnv) (idx : Nat)
    (reflection : JVal) (st : LoopState) :
    (apply_reflection env idx reflection st).dispatched = st.dispatched := by
  unfold apply_reflection
  split
  · rfl
  · split
    · rfl
    · split
      · split <;> rfl
      · rfl
    · rfl

theorem apply_reflection_exn (env : MissionEnv) (idx : Nat) (reflection : JVal)
    (st : LoopState) (hp : reflectionParses reflection = true)
    (he : st.exn = none) :
    (apply_reflection env idx reflection st).exn = none := by
  unfold apply_reflection
  unfold reflectionParses at hp
  split
  · exact he
  · rename_i hobj
    rw [if_neg hobj] at hp
    split
    · exact he
    · rename_i heq
      rw [heq] at hp
      simp only at hp
      split
      · rename_i htr
        rw [if_pos htr] at hp
        split
        · exact he
        · rename_i e hpe
          rw [hpe] at hp
          simp [Except.toBool] at hp
      · exact he
    · exact he

theorem step_iter_exn (env : MissionEnv) (idx : Nat) (s : MissionStep)
    (st : LoopState)
    (hp : reflectionParses (reflect_on_failure env st.reflCount) = true)
    (he : st.exn = none) : (step_iter env idx s st).exn = none := by
  simp only [step_iter]
  split
  · exact apply_reflection_exn _ _ _ _ hp he
  · exact he

theorem step_iter_dispatched (env : MissionEnv) (idx : Nat) (s : MissionStep)
    (st : LoopState) :
    (step_iter env idx s st).dispatched = st.dispatched ++ [(s.step_id, s.action)] := by
  simp only [step_iter]
  split
  · exact apply_reflection_dispatched _ _ _ _
  · rfl

theorem run_steps_ok (env : MissionEnv) (steps : List MissionStep)
    (hp : ∀ n, reflectionParses (reflect_on_failure env n) = true) :
    ∀ (idx : Nat) (st : LoopState), st.exn = none →
      (run_steps env idx steps st).exn = none ∧
      (run_steps env idx steps st).dispatched =
        st.dispatched ++ steps.map (fun s => (s.step_id, s.action)) := by
  induction steps with
  | nil => intro idx st he; simpa [run_steps] using he
  | cons s rest ih =>
      intro idx st he
      simp only [run_steps, he, Option.isSome_none, Bool.false_eq_true,
        if_false, List.map_cons]
      have hstep := step_iter_exn env idx s st (hp st.reflCount) he
      obtain ⟨h1, h2⟩ := ih (idx + 1) (step_iter env idx s st) hstep
      refine ⟨h1, ?_⟩
      rw [h2, step_iter_dispatched]
      simp

theorem apply_reflection_no_change (env : MissionEnv) (idx : Nat) (r : JVal)
    (st : LoopState)
    (h : r = .obj [("next_action", .str "continue")] ∨ r.isObj = false) :
    apply_reflection env idx r st = st := by
  rcases h with h | h
  · subst h; rfl
  · simp [apply_reflection, h]

theorem unusable_no_change (env : MissionEnv) (idx n : Nat) (st : LoopState)
    (h : reflectionUnusable (env.reflect n) = true) :
    apply_reflection env idx (reflect_on_failure env n) st = st := by
  cases hr : env.reflect n with
  | raises m =>
      exact apply_reflection_no_change _ _ _ _ (Or.inl (by simp [reflect_on_failure, hr]))
  | parsed v =>
      refine apply_reflection_no_change _ _ _ _ (Or.inr ?_)
      simp only [reflectionUnusable, hr] at h
      simp [reflect_on_failure, hr]
      simpa using h

theorem unusable_parses (env : MissionEnv) (n : Nat)
    (h : reflectionUnusable (env.reflect n) = true) :
    reflectionParses (reflect_on_failure env n) = true := by
  cases hr : env.reflect n with
  | raises m => simp [reflect_on_failure, hr]; rfl
  | parsed v =>
      simp only [reflectionUnusable, hr] at h
      simp only [reflect_on_failure, hr]
      unfold reflectionParses
      rw [if_pos (by simpa using h)]

/-! ## Characterization of execute_mission on its two return paths -/

theorem execute_mission_failure (env : MissionEnv) (goal : String)
    (h : env.genPlan = none ∨ env.genPlan = some []) :
    execute_mission env goal = .ok planFailureOutcome := by
  rcases h with h | h <;> simp [execute_mission, h]

theorem execute_mission_ok_spec (env : MissionEnv) (goal : String)
    (plan : List MissionStep) (out : MissionOutcome)
    (hg : env.genPlan = some plan) (hne : plan ≠ [])
    (hok : execute_mission env goal = .ok out) :
    out.error = none ∧ out.mission_status = "completed" ∧
    out.mission_steps = plan ∧
    out.returned_steps = (run_steps env 0 plan
      { planVar := plan, replanned := false, reflCount := 0, fbCount := 0,
        dispatched := [], feedbacks := [], exn := none }).planVar ∧
    out.dispatched = (run_steps env 0 plan
      { planVar := plan, replanned := false, reflCount := 0, fbCount := 0,
        dispatched := [], feedbacks := [], exn := none }).dispatched ∧
    out.persisted = [final_record goal plan out.returned_steps] ∧
    out.success = (out.returned_steps.countP (fun s => s.status == "completed")
      == out.returned_steps.length) := by
  cases plan with
  | nil => exact absurd rfl hne
  | cons a as =>
      unfold execute_mission at hok
      rw [hg] at hok
      simp only [List.isEmpty_cons, Bool.false_eq_true, if_false] at hok
      split at hok
      · exact absurd hok (by simp)
      · injection hok with h
        subst h
        exact ⟨rfl, rfl, rfl, rfl, rfl, rfl, rfl⟩

/-! ## Claim theorems -/

/-- C10: two consecutive receive calls on the same mailbox with no
intervening send return the empty list on the second call; the first call
drains the whole queue and leaves the mailbox present but empty. -/
theorem c10_receive_drains (bus : Bus) (queen_id : String) :
    (receive_messages (receive_messages bus queen_id).2 queen_id).1 = [] ∧
    dget (receive_messages bus queen_id).2 queen_id = some [] ∧
    (receive_messages bus queen_id).1 = (dget bus queen_id).getD [] := by
  refine ⟨?_, dget_dset_self _ _ _, rfl⟩
  simp [receive_messages, dget_dset_self]

/-- C9: when the resolved dispatch target raises, the dispatcher converts
the exception into a failed step whose observation carries the exception
text, and returns that step normally (the function is total, so nothing
escapes into the caller). -/
theorem c9_exception_contained (queenReg droneReg : String → Option Target)
    (step : MissionStep) (t a m : String) (tgt : Target)
    (hsplit : py_split_dot step.action = [t, a])
    (htgt : resolve_target queenReg droneReg t = some tgt)
    (hraise : tgt a step.parameters = .raises m) :
    execute_step queenReg droneReg step =
      step.mark_failed ("Execution error: " ++ m) .null ∧
    (execute_step queenReg droneReg step).status = "failed" ∧
    (execute_step queenReg droneReg step).observation =
      some ("Execution error: " ++ m) := by
  have h1 : execute_step queenReg droneReg step =
      step.mark_failed ("Execution error: " ++ m) .null := by
    simp [execute_step, hsplit, htgt, hraise, interpret_call]
  refine ⟨h1, ?_, ?_⟩ <;> rw [h1] <;> rfl

theorem c9_exception_contained_witness :
    execute_step (fun _ => none) c9_droneReg c9_step =
      c9_step.mark_failed ("Execution error: " ++ "boom") .null ∧
    (execute_step (fun _ => none) c9_droneReg c9_step).status = "failed" ∧
    (execute_step (fun _ => none) c9_droneReg c9_step).observation =
      some ("Execution error: " ++ "boom") :=
  c9_exception_contained (fun _ => none) c9_droneReg c9_step "T" "m" "boom"
    c9_raising_target rfl rfl rfl

/-- C5 counterexample: registering a second queen under an existing id does
not silently overwrite; it raises a ValueError. -/
theorem c5_counterexample :
    register_queen [("q", (0 : Nat))] "q" 1 =
      .error ("Queen with ID \x27q\x27 already registered.") := by
  rfl

/-- C5 as amended: the drone (capability) registry silently overwrites, so a
get after two registrations under one name returns the second handle; the
queen (agent) registry instead rejects a duplicate id with an error, so the
two registries are not structurally identical. -/
theorem c5_amended_registration (drones : List (String × Drone))
    (d1 d2 : Drone) (hname : d1.name = d2.name)
    {α : Type} (queens : List (String × α)) (queen_id : String) (q : α)
    (hdup : (get_queen queens queen_id).isSome = true) :
    get_drone (register_drone (register_drone drones d1) d2) d2.name = some d2 ∧
    register_queen queens queen_id q =
      .error ("Queen with ID \x27" ++ queen_id ++ "\x27 already registered.") := by
  constructor
  · unfold register_drone get_drone
    rw [hname]
    exact dget_dset_self _ _ _
  · unfold get_queen at hdup
    simp [register_queen, hdup]

theorem c5_amended_registration_witness :
    get_drone (register_drone (register_drone [] c5_d1) c5_d2) c5_d2.name =
      some c5_d2 ∧
    register_queen [("q", (0 : Nat))] "q" 7 =
      .error ("Queen with ID \x27" ++ "q" ++ "\x27 already registered.") :=
  c5_amended_registration [] c5_d1 c5_d2 rfl [("q", 0)] "q" 7 rfl

/-- C4 counterexample: an action with an empty target token splits into two
tokens, passes the format check and is classified as the not-found failure,
not as an invalid action format. -/
theorem c4_counterexample :
    (execute_step (fun _ => none) (fun _ => none) c4_step).observation =
      some "Drone not found: " ∧
    (execute_step (fun _ => none) (fun _ => none) c4_step).observation ≠
      some ("Invalid action format: " ++ c4_step.action) := by
  constructor
  · rfl
  · decide

/-- C4 as amended: only an action that does not split into exactly two dot
separated tokens (empty tokens included) is marked with the invalid action
format observation, and the dispatcher returns normally; an action with an
empty target token passes the format check and, when no registry holds the
empty name, falls through to the not-found (entity missing) failure class. -/
theorem c4_amended_format_check (queenReg droneReg : String → Option Target)
    (step : MissionStep) :
    ((py_split_dot step.action).length ≠ 2 →
      execute_step queenReg droneReg step =
        step.mark_failed ("Invalid action format: " ++ step.action) .null) ∧
    (∀ meth, py_split_dot step.action = ["", meth] →
      queenReg "" = none → droneReg "" = none →
      execute_step queenReg droneReg step =
        step.mark_failed ("Drone not found: " ++ "") .null) := by
  constructor
  · intro h
    simp only [execute_step]
    rw [if_pos h]
  · intro meth hsplit hq hd
    simp [execute_step, hsplit, resolve_target, hq, hd]

theorem c4_amended_format_check_witness :
    execute_step (fun _ => none) (fun _ => none) c4_nodot_step =
      c4_nodot_step.mark_failed ("Invalid action format: " ++ c4_nodot_step.action) .null ∧
    execute_step (fun _ => none) (fun _ => none) c4_step =
      c4_step.mark_failed ("Drone not found: " ++ "") .null :=
  ⟨(c4_amended_format_check (fun _ => none) (fun _ => none) c4_nodot_step).1
      (by decide),
   (c4_amended_format_check (fun _ => none) (fun _ => none) c4_step).2
      "method" rfl rfl rfl⟩

/-- C6 counterexample: with the Scenario C mailbox message exactly as the
claim states it (the flat dict with a single task key), the reserved-goal
plan generator takes the malformed-message branch: the reply details text is
the malformed-message string, which does not contain the unknown-task
substring. -/
theorem c6_counterexample :
    ((generate_plan_mailbox "default_queen" c6_flat_bus).1.getD []).map
      (fun s => ((s.parameters.get "message").getD .null).get "details") =
      [some (.str "Received empty or malformed task message")] ∧
    contains_substr "Received empty or malformed task message"
      "Unknown task: unknown_task" = false := by
  exact ⟨rfl, rfl⟩

/-- C6 as amended: the unknown-task reply is produced only when the mailbox
item nests the task payload under its message key.  With the single nested
message from queen_B, the reserved goal yields a one-step plan addressed to
the own send_message action; dispatching that step through the self-queen
wiring completes it and delivers to queen_B a reply whose status is failed
and whose details text contains the unknown-task substring. -/
theorem c6_amended_nested_mailbox :
    c6_plan.1.map List.length = some 1 ∧
    c6_step.action = "default_queen.send_message" ∧
    c6_exec.1.status = "completed" ∧
    c6_reply_box.map (fun m => (m.get "status", m.get "details")) =
      [(some (.str "failed"), some (.str "Unknown task: unknown_task"))] ∧
    contains_substr "Unknown task: unknown_task" "Unknown task: unknown_task" = true := by
  exact ⟨rfl, rfl, rfl, rfl, rfl⟩

/-- C2 counterexample: in a Scenario A run (a one-step plan whose step
completes), the persisted record steps still carry the planning-time pending
status, not the status the step ended execution with. -/
theorem c2_counterexample :
    (execute_mission saEnv "say hello").map
      (fun o => (o.persisted.map (fun r => r.steps.map (fun s => s.status)),
                 o.returned_steps.map (fun s => s.status))) =
      .ok ([["pending"]], ["completed"]) := by
  rfl

/-- C2 as amended: for every mission whose planning succeeds and whose
execution returns, the record is persisted exactly once, at the completed
transition, with aggregate counts computed over the final value of the plan
variable; but its step list is the planning-time snapshot of the original
plan, not the post-execution states. -/
theorem c2_amended_persist_once (env : MissionEnv) (goal : String)
    (plan : List MissionStep) (out : MissionOutcome)
    (hg : env.genPlan = some plan) (hne : plan ≠ [])
    (hok : execute_mission env goal = .ok out) :
    out.persisted = [final_record goal plan out.returned_steps] ∧
    out.mission_status = "completed" ∧ out.error = none := by
  obtain ⟨h1, h2, _, _, _, h6, _⟩ :=
    execute_mission_ok_spec env goal plan out hg hne hok
  exact ⟨h6, h2, h1⟩

theorem c2_amended_persist_once_witness :
    saOut.persisted =
      [final_record "say hello" [MissionStep.mk0 1 "Good.y" (.obj []) "r"]
        saOut.returned_steps] ∧
    saOut.mission_status = "completed" ∧ saOut.error = none :=
  c2_amended_persist_once saEnv "say hello"
    [MissionStep.mk0 1 "Good.y" (.obj []) "r"] saOut rfl
    (List.cons_ne_nil _ _) rfl

/-- C3 counterexample: in a two-step run whose first step fails with the
replan verdict, the persisted record still lists the original second step
(action Good.y, pending), not the revised step X.y that replaced it in
memory: the suffix replacement never reaches the persisted record. -/
theorem c3_counterexample :
    (execute_mission frameEnv "g").map
      (fun o =>
        (o.persisted.map (fun r => r.steps.map (fun s => (s.step_id, s.action, s.status))),
         o.returned_steps.map (fun s => (s.step_id, s.action, s.status)))) =
      .ok ([[(1, "Bad.x", "pending"), (2, "Good.y", "pending")]],
           [(1, "Bad.x", "failed"), (2, "X.y", "pending")]) := by
  rfl

/-- C3 as amended: the replan splice replaces exactly the in-memory suffix
after the cursor (every entry at an index up to the cursor is unchanged and
the new tail is exactly the parsed revised plan), while the step list of the
mission record as later persisted is the planning-time snapshot of the
original plan, untouched by replan events. -/
theorem c3_amended_frame :
    (∀ (cur : List MissionStep) (idx : Nat) (rem : List MissionStep) (i : Nat),
      i ≤ idx → i < cur.length →
      (spliceReplan cur idx rem).get? i = cur.get? i) ∧
    (∀ (cur : List MissionStep) (idx : Nat) (rem : List MissionStep),
      idx + 1 ≤ cur.length →
      (spliceReplan cur idx rem).drop (idx + 1) = rem) ∧
    (∀ (env : MissionEnv) (goal : String) (plan : List MissionStep)
      (out : MissionOutcome), env.genPlan = some plan → plan ≠ [] →
      execute_mission env goal = .ok out →
      out.persisted.map MissionRecord.steps = [plan]) := by
  refine ⟨?_, ?_, ?_⟩
  · intro cur idx rem i hi hlen
    have ht : i < (cur.take (idx + 1)).length := by
      rw [List.length_take]; omega
    rw [spliceReplan, List.get?_append ht, List.get?_take (by omega)]
  · intro cur idx rem h
    have hlen : (cur.take (idx + 1)).length = idx + 1 := by
      rw [List.length_take]; omega
    calc (spliceReplan cur idx rem).drop (idx + 1)
        = (cur.take (idx + 1) ++ rem).drop ((cur.take (idx + 1)).length) := by
          rw [spliceReplan, hlen]
      _ = rem := List.drop_left _ _
  · intro env goal plan out hg hne hok
    obtain ⟨_, _, _, _, _, h6, _⟩ :=
      execute_mission_ok_spec env goal plan out hg hne hok
    rw [h6]
    rfl

theorem c3_amended_frame_witness :
    (spliceReplan [c4_step, c4_nodot_step] 0 [c9_step]).get? 0 =
      [c4_step, c4_nodot_step].get? 0 ∧
    (spliceReplan [c4_step, c4_nodot_step] 0 [c9_step]).drop 1 = [c9_step] ∧
    saOut.persisted.map MissionRecord.steps =
      [[MissionStep.mk0 1 "Good.y" (.obj []) "r"]] :=
  ⟨c3_amended_frame.1 [c4_step, c4_nodot_step] 0 [c9_step] 0 (Nat.le_refl 0)
      (by decide),
   c3_amended_frame.2.1 [c4_step, c4_nodot_step] 0 [c9_step] (by decide),
   c3_amended_frame.2.2 saEnv "say hello"
      [MissionStep.mk0 1 "Good.y" (.obj []) "r"] saOut rfl
      (List.cons_ne_nil _ _) rfl⟩

/-- C1: evaluation of the code at the Scenario B input.  The in-memory list
does become the executed prefix followed by the revised step (ids 1 and 2,
the revised action X.y), but the dispatch trace contains only the original
step: the loop iterates the list object captured at loop entry, so the
revised step is never dispatched and is still pending when the mission
completes — contradicting the sentence that the revised tail is executed
before completion. -/
theorem c1_revised_steps_never_dispatched :
    (execute_mission sbEnv "goal").map
      (fun o => (o.mission_status, o.dispatched,
                 o.returned_steps.map (fun s => (s.step_id, s.action, s.status)))) =
      .ok ("completed", [(1, "Bad.x")],
           [(1, "Bad.x", "failed"), (2, "X.y", "pending")]) := by
  rfl

/-- C7 counterexample: planning succeeded (the plan is nonempty), yet the
public entry point raises: the reflector answered a replan verdict whose
revised plan entry lacks the action key, and the revised-plan parsing runs
outside every try block, so the KeyError escapes execute_mission.  The
mission also is not persisted.  So a planning failure is not the only
externally visible failure mode. -/
theorem c7_counterexample :
    badReplanEnv.genPlan = some [MissionStep.mk0 1 "Bad.x" (.obj []) "r"] ∧
    execute_mission badReplanEnv "g" = .error "KeyError in revised plan step" := by
  exact ⟨rfl, rfl⟩

/-- C7 as amended: provided every reflection verdict that demands a replan
carries a parseable revised plan, the planner returning nothing usable (an
exception, or an empty list) is the only failure condition: it aborts with
the planning-failure result, persisting nothing, and in every other case the
entry point returns normally with no error field, persisting the mission
exactly once at the completed transition. -/
theorem c7_amended_planning_failure_only (env : MissionEnv) (goal : String)
    (h : ∀ n, reflectionParses (reflect_on_failure env n) = true) :
    ((env.genPlan = none ∨ env.genPlan = some []) →
      execute_mission env goal = .ok planFailureOutcome) ∧
    (∀ plan, env.genPlan = some plan → plan ≠ [] →
      ∃ out, execute_mission env goal = .ok out ∧ out.error = none ∧
        out.persisted.length = 1 ∧ out.mission_status = "completed") := by
  constructor
  · exact execute_mission_failure env goal
  · intro plan hg hne
    cases plan with
    | nil => exact absurd rfl hne
    | cons a as =>
        have hexn := (run_steps_ok env (a :: as) h 0
          { planVar := a :: as, replanned := false, reflCount := 0,
            fbCount := 0, dispatched := [], feedbacks := [], exn := none }
          rfl).1
        unfold execute_mission
        rw [hg]
        simp only [List.isEmpty_cons, Bool.false_eq_true, if_false]
        rw [hexn]
        exact ⟨_, rfl, rfl, rfl, rfl⟩

theorem c7_amended_planning_failure_only_witness :
    execute_mission emptyPlanEnv "g" = .ok planFailureOutcome ∧
    (execute_mission saEnv "say hello").toOption.map
      (fun o => (o.error, o.persisted.length, o.mission_status)) =
      some (none, 1, "completed") := by
  constructor
  · exact (c7_amended_planning_failure_only emptyPlanEnv "g" (fun _ => rfl)).1
      (Or.inr rfl)
  · obtain ⟨out, h1, h2, h3, h4⟩ :=
      (c7_amended_planning_failure_only saEnv "say hello" (fun _ => rfl)).2
        [MissionStep.mk0 1 "Good.y" (.obj []) "r"] rfl (List.cons_ne_nil _ _)
    rw [h1]
    simp [Except.toOption, h2, h3, h4]

/-- C8: when every reflector call raises or yields a non-dict value, the
reflection machinery fails open.  A raising call resolves to the literal
fallback continue verdict; no exception propagates out of the entry point;
every step of the plan is still dispatched, in order, and the mission
reaches the completed status and is persisted once. -/
theorem c8_reflection_fails_open (env : MissionEnv) (goal : String)
    (plan : List MissionStep)
    (hu : ∀ n, reflectionUnusable (env.reflect n) = true)
    (hg : env.genPlan = some plan) (hne : plan ≠ []) :
    (∀ n m, env.reflect n = .raises m →
      reflect_on_failure env n = .obj [("next_action", .str "continue")]) ∧
    ∃ out, execute_mission env goal = .ok out ∧
      out.mission_status = "completed" ∧
      out.persisted.length = 1 ∧
      out.dispatched = plan.map (fun s => (s.step_id, s.action)) := by
  constructor
  · intro n m hr
    simp [reflect_on_failure, hr]
  · cases plan with
    | nil => exact absurd rfl hne
    | cons a as =>
        have hparse : ∀ n, reflectionParses (reflect_on_failure env n) = true :=
          fun n => unusable_parses env n (hu n)
        obtain ⟨hexn, hdisp⟩ := run_steps_ok env (a :: as) hparse 0
          { planVar := a :: as, replanned := false, reflCount := 0,
            fbCount := 0, dispatched := [], feedbacks := [], exn := none }
          rfl
        unfold execute_mission
        rw [hg]
        simp only [List.isEmpty_cons, Bool.false_eq_true, if_false]
        rw [hexn]
        refine ⟨_, rfl, rfl, rfl, ?_⟩
        rw [hdisp]
        simp

theorem c8_reflection_fails_open_witness :
    reflect_on_failure c8Env 0 = .obj [("next_action", .str "continue")] ∧
    (execute_mission c8Env "g").toOption.map
      (fun o => (o.mission_status, o.persisted.length, o.dispatched)) =
      some ("completed", 1, [(1, "Bad.x")]) := by
  have h := c8_reflection_fails_open c8Env "g"
    [MissionStep.mk0 1 "Bad.x" (.obj []) "r"] (fun _ => rfl) rfl
    (List.cons_ne_nil _ _)
  exact ⟨h.1 0 "connection error" rfl, by rfl⟩

end WormSpec
